import Mathlib

/-!
Shallow embedding of the `bedzones` repository: the `BedDualZone` widget
(a pure render function) and the `BedDemo` shell state machine.
JavaScript numbers are modelled as `ℚ`; `Math.round` as `⌊q + 1/2⌋`
(JavaScript rounds half-way cases toward +∞).
-/

namespace BedZones

/-- `type Side = 'left' | 'right'` (BedDemo.tsx / BedDualZone). -/
inductive Side
  | left
  | right
deriving DecidableEq, Repr

/-- The opposite side of the bed. -/
def otherSide : Side → Side
  | .left => .right
  | .right => .left

/-- `type Mode = 'off' | 'cool' | 'heat'` (BedDualZone). -/
inductive Mode
  | off
  | cool
  | heat
deriving DecidableEq, Repr

/-- The display unit: `unit : 'F' | 'C'`. -/
inductive TUnit
  | F
  | C
deriving DecidableEq, Repr

/-- `schedule?: { running: boolean; nextStart?: string }`. -/
structure Schedule where
  running : Bool
  nextStart : Option String := none
deriving DecidableEq, Repr

/-- `interface ZoneState` from BedDualZone: mode, current sensed temperature,
optional desired temperature, optional schedule info. Temperatures are stored
in the Fahrenheit-based internal unit. -/
structure ZoneState where
  mode : Mode
  currentTemp : ℚ
  targetTemp : Option ℚ := none
  schedule : Option Schedule := none
deriving DecidableEq, Repr

/-- `const fToC = (f) => ((f - 32) * 5) / 9` (BedDemo.tsx line 52). -/
def fToC (f : ℚ) : ℚ := (f - 32) * 5 / 9

/-- `const cToF = (c) => (c * 9) / 5 + 32` (BedDemo.tsx line 53). -/
def cToF (c : ℚ) : ℚ := c * 9 / 5 + 32

/-- JavaScript `Math.round`: half-way cases round toward positive infinity. -/
def jsRound (q : ℚ) : ℤ := ⌊q + 1/2⌋

/-- `toUnit`: convert a stored Fahrenheit value to the display unit,
rounding to one decimal in Celsius and to an integer in Fahrenheit. -/
def toUnit : TUnit → ℚ → ℚ
  | .C, t => (jsRound (fToC t * 10) : ℚ) / 10
  | .F, t => (jsRound t : ℚ)

/-- `fromUnit`: convert a display-unit value back to stored Fahrenheit. -/
def fromUnit : TUnit → ℚ → ℚ
  | .C, t => cToF t
  | .F, t => t

/-- The per-unit temperature configuration record of `tempCfg`. -/
structure TempCfg where
  min : ℚ
  max : ℚ
  mid : ℚ
  step : ℚ
deriving DecidableEq, Repr

/-- `tempCfg` (BedDemo.tsx lines 57-59): `{min 13, max 43.5, mid 28, step 0.5}`
for Celsius and `{min 55, max 110, mid 82, step 1}` for Fahrenheit. -/
def tempCfg : TUnit → TempCfg
  | .C => ⟨13, 87/2, 28, 1/2⟩
  | .F => ⟨55, 110, 82, 1⟩

/-- The zone updater of `changeTemp` (BedDemo.tsx lines 61-76): take the
displayed target (defaulting to the unit mid value), add `delta`, clamp to the
unit range, convert back to Fahrenheit, and re-derive the mode unless off. -/
def changeTempZone (u : TUnit) (delta : ℚ) (z : ZoneState) : ZoneState :=
  let cfg := tempCfg u
  let currentTarget := toUnit u (z.targetTemp.getD (fromUnit u cfg.mid))
  let next := min cfg.max (max cfg.min (currentTarget + delta))
  let nextF := fromUnit u next
  let mode :=
    if z.mode = Mode.off then z.mode
    else if z.currentTemp < nextF then Mode.heat
    else if nextF < z.currentTemp then Mode.cool
    else z.mode
  { z with targetTemp := some nextF, mode := mode }

/-- The zone updater of `togglePower` (BedDemo.tsx lines 78-87). -/
def togglePowerZone (z : ZoneState) : ZoneState :=
  if z.mode = Mode.off then
    let target := z.targetTemp.getD z.currentTemp
    let mode :=
      if z.currentTemp < target then Mode.heat
      else if target < z.currentTemp then Mode.cool
      else Mode.heat
    { z with mode := mode, targetTemp := some target }
  else { z with mode := Mode.off }

/-- The zone updater of `toggleSchedule` (BedDemo.tsx lines 89-90):
`{ ...z.schedule, running }` — spreading an absent schedule yields an object
with only `running`. -/
def toggleScheduleZone (running : Bool) (z : ZoneState) : ZoneState :=
  { z with
    schedule := some
      { running := running
        nextStart :=
          match z.schedule with
          | some s => s.nextStart
          | none => none } }

/-- The zone updater of `setScheduleStart` (BedDemo.tsx lines 92-96):
`{ running: z.schedule?.running ?? false, nextStart }`. -/
def setScheduleStartZone (t : String) (z : ZoneState) : ZoneState :=
  { z with
    schedule := some
      { running :=
          match z.schedule with
          | some s => s.running
          | none => false
        nextStart := some t } }

/-- The `Record<Side, ZoneState>` held by the demo. -/
structure Zones where
  left : ZoneState
  right : ZoneState
deriving DecidableEq, Repr

/-- Look up one side's zone state. -/
def Zones.get (zs : Zones) : Side → ZoneState
  | .left => zs.left
  | .right => zs.right

/-- `updateZone` (BedDemo.tsx lines 49-50): apply an updater to one side
of the record, leaving the other entry as it was. -/
def updateZone (side : Side) (updater : ZoneState → ZoneState) (zs : Zones) : Zones :=
  match side with
  | .left => { zs with left := updater zs.left }
  | .right => { zs with right := updater zs.right }

/-- `page : 'home' | 'settings' | 'schedule'`. -/
inductive Page
  | home
  | settings
  | schedule
deriving DecidableEq, Repr

/-- The `sideNames` record of the demo shell. -/
structure SideNames where
  left : String
  right : String
deriving DecidableEq, Repr

/-- The whole `BedDemo` React state: zones, editing side, display unit,
active page, and custom side names. -/
structure DemoState where
  zones : Zones
  editing : Side
  unit : TUnit
  page : Page
  sideNames : SideNames
deriving DecidableEq, Repr

/-- The initial demo state (BedDemo.tsx lines 28-47). -/
def initialState : DemoState :=
  { zones :=
      { left :=
          { mode := Mode.cool, currentTemp := 72, targetTemp := some 68
            schedule := some { running := false } }
        right :=
          { mode := Mode.off, currentTemp := 70
            schedule := some { running := false } } }
    editing := Side.left
    unit := TUnit.F
    page := Page.home
    sideNames := { left := "Left", right := "Right" } }

/-- `changeTemp(side, delta)` at the demo level; the closure reads the
currently selected `unit`. -/
def changeTemp (side : Side) (delta : ℚ) (st : DemoState) : DemoState :=
  { st with zones := updateZone side (changeTempZone st.unit delta) st.zones }

/-- `togglePower(side)` at the demo level. -/
def togglePower (side : Side) (st : DemoState) : DemoState :=
  { st with zones := updateZone side togglePowerZone st.zones }

/-- `toggleSchedule(side, running)` at the demo level. -/
def toggleSchedule (side : Side) (running : Bool) (st : DemoState) : DemoState :=
  { st with zones := updateZone side (toggleScheduleZone running) st.zones }

/-- `setScheduleStart(side, nextStart)` at the demo level. -/
def setScheduleStart (side : Side) (t : String) (st : DemoState) : DemoState :=
  { st with zones := updateZone side (setScheduleStartZone t) st.zones }

/-- `onSideClick={(s) => setEditing(s)}` (BedDemo.tsx line 115). -/
def setEditing (s : Side) (st : DemoState) : DemoState := { st with editing := s }

/-- The `Show °C` switch: `setUnit(checked ? 'C' : 'F')` (BedDemo.tsx line 165). -/
def setUnit (u : TUnit) (st : DemoState) : DemoState := { st with unit := u }

/-- The bottom navigation: `onChange={(_, v) => setPage(v)}` (BedDemo.tsx line 225). -/
def setPage (p : Page) (st : DemoState) : DemoState := { st with page := p }

/-- The settings text fields that rename the sides. -/
def setSideNames (n : SideNames) (st : DemoState) : DemoState := { st with sideNames := n }

/-- The tint a zone's `modeStyles` entry selects: blue for cool, red for heat,
gray for off. -/
inductive Tint
  | blue
  | red
  | gray
deriving DecidableEq, Repr

/-- Which tint `modeStyles[state.mode]` picks (BedDualZone `modeStyles`). -/
def modeTint : Mode → Tint
  | .cool => .blue
  | .heat => .red
  | .off => .gray

/-- The string a `Mode` interpolates to in template literals. -/
def modeStr : Mode → String
  | .off => "off"
  | .cool => "cool"
  | .heat => "heat"

/-- `formatTemp` of BedDualZone: `unit === 'C' ? Math.round(((t - 32) * 5) / 9)
: Math.round(t)`. -/
def formatTemp : TUnit → ℚ → ℤ
  | .C, t => jsRound ((t - 32) * 5 / 9)
  | .F, t => jsRound t

/-- `` `°${unit}` `` — the unit suffix of every temperature label. -/
def unitLabel : TUnit → String
  | .F => "°F"
  | .C => "°C"

/-- `scheduleLabel` of BedDualZone: `state.schedule?.running` is truthy gives
"Schedule running"; otherwise a truthy `nextStart` (a nonempty string) gives
"Starts at ..."; otherwise no label. -/
def scheduleLabelOf (z : ZoneState) : Option String :=
  match z.schedule with
  | none => none
  | some sch =>
    if sch.running then some "Schedule running"
    else
      match sch.nextStart with
      | none => none
      | some t => if t = "" then none else some ("Starts at " ++ t)

/-- The target-temperature line of BedDualZone: rendered only when
`state.mode !== 'off' && state.targetTemp !== undefined`; it reads
"Maintaining …" when current equals target, otherwise "Cooling to …" or
"Heating to …" by mode. -/
def targetLabelOf (u : TUnit) (z : ZoneState) : Option String :=
  if z.mode = Mode.off then none
  else
    match z.targetTemp with
    | none => none
    | some tt =>
      if z.currentTemp = tt then
        some ("Maintaining " ++ toString (formatTemp u tt) ++ unitLabel u)
      else if z.mode = Mode.cool then
        some ("Cooling to " ++ toString (formatTemp u tt) ++ unitLabel u)
      else
        some ("Heating to " ++ toString (formatTemp u tt) ++ unitLabel u)

/-- Everything one zone's `ButtonBase` subtree displays or emits:
the click payload, aria attributes, tint, highlight, opacity, and the
temperature and schedule labels. -/
structure RenderedZone where
  key : Side
  clickEvent : Side
  ariaLabel : String
  ariaPressed : Bool
  title : String
  name : String
  tint : Tint
  highlighted : Bool
  opacity : ℚ
  currentLabel : String
  targetLabel : Option String
  scheduleLabel : Option String
deriving DecidableEq, Repr

/-- Render one zone of the bed (the body of `zones.map` in BedDualZone). -/
def renderZone (u : TUnit) (editingSide : Option Side) (key : Side) (name : String)
    (state : ZoneState) : RenderedZone :=
  let isEditing : Bool := editingSide = some key
  let ariaLabel :=
    name ++ " side: " ++ modeStr state.mode ++ (if isEditing then ", editing" else "")
  { key := key
    clickEvent := key
    ariaLabel := ariaLabel
    ariaPressed := isEditing
    title := ariaLabel
    name := name
    tint := modeTint state.mode
    highlighted := isEditing
    opacity := if editingSide.isSome && !isEditing then 6/10 else 1
    currentLabel := toString (formatTemp u state.currentTemp) ++ unitLabel u
    targetLabel := targetLabelOf u state
    scheduleLabel := scheduleLabelOf state }

/-- The partially-optional `sideNames` prop of BedDualZone. -/
structure PartialSideNames where
  left : Option String := none
  right : Option String := none
deriving DecidableEq, Repr

/-- `BedDualZoneProps` with the widget's declared defaults. -/
structure BedProps where
  left : ZoneState
  right : ZoneState
  editingSide : Option Side := none
  width : ℚ := 360
  sideNames : Option PartialSideNames := none
  unit : TUnit := TUnit.F
deriving DecidableEq, Repr

/-- The derived output of one BedDualZone invocation. -/
structure BedRender where
  maxWidth : ℚ
  zonesR : List RenderedZone
deriving DecidableEq, Repr

/-- The pure render function of BedDualZone: defaulted side names, then the
two zones in left-right order. -/
def renderBed (p : BedProps) : BedRender :=
  let leftName := (p.sideNames.bind PartialSideNames.left).getD "Left"
  let rightName := (p.sideNames.bind PartialSideNames.right).getD "Right"
  { maxWidth := p.width
    zonesR :=
      [renderZone p.unit p.editingSide Side.left leftName p.left,
       renderZone p.unit p.editingSide Side.right rightName p.right] }

/-- The target value shown by the demo's temperature controls
(BedDemo.tsx line 134): the stored target, defaulting to the unit mid,
converted to the display unit. -/
def displayedTarget (u : TUnit) (z : ZoneState) : ℚ :=
  toUnit u (z.targetTemp.getD (fromUnit u (tempCfg u).mid))

/-- A sequence of `changeTemp` button presses applied to one zone under a
fixed display unit. -/
def applyPresses (u : TUnit) (z : ZoneState) (ds : List ℚ) : ZoneState :=
  ds.foldl (fun z d => changeTempZone u d z) z

/-- The mode field ranges over the three-value enumeration. -/
def modeValid (z : ZoneState) : Prop :=
  z.mode = Mode.off ∨ z.mode = Mode.cool ∨ z.mode = Mode.heat

lemma modeValid_of (z : ZoneState) : modeValid z := by
  rcases z with ⟨m, c, t, s⟩
  cases m
  · exact Or.inl rfl
  · exact Or.inr (Or.inl rfl)
  · exact Or.inr (Or.inr rfl)

lemma cToF_fToC (f : ℚ) : cToF (fToC f) = f := by
  unfold cToF fToC; ring

lemma fToC_cToF (c : ℚ) : fToC (cToF c) = c := by
  unfold fToC cToF; ring

/-- C1: each per-side editing operation — `changeTemp`, `togglePower`,
`toggleSchedule`, `setScheduleStart` applied to side `s` — leaves the
`ZoneState` of the opposite side completely unchanged, in every demo state. -/
theorem side_ops_preserve_other_side (st : DemoState) (s : Side) (delta : ℚ)
    (running : Bool) (t : String) :
    (changeTemp s delta st).zones.get (otherSide s) = st.zones.get (otherSide s) ∧
    (togglePower s st).zones.get (otherSide s) = st.zones.get (otherSide s) ∧
    (toggleSchedule s running st).zones.get (otherSide s) = st.zones.get (otherSide s) ∧
    (setScheduleStart s t st).zones.get (otherSide s) = st.zones.get (otherSide s) := by
  cases s <;> exact ⟨rfl, rfl, rfl, rfl⟩

/-- C2: in every demo state each zone's mode is one of off, cool, heat, and
every state-updating operation (`changeTemp`, `togglePower`, `toggleSchedule`,
`setScheduleStart`) preserves this. -/
theorem mode_always_valid (st : DemoState) (s s' : Side) (delta : ℚ)
    (running : Bool) (t : String) :
    modeValid (st.zones.get s') ∧
    modeValid ((changeTemp s delta st).zones.get s') ∧
    modeValid ((togglePower s st).zones.get s') ∧
    modeValid ((toggleSchedule s running st).zones.get s') ∧
    modeValid ((setScheduleStart s t st).zones.get s') :=
  ⟨modeValid_of _, modeValid_of _, modeValid_of _, modeValid_of _, modeValid_of _⟩

/-- C3: the demo's pure unit-conversion functions are exact mutual inverses
over the rationals: `cToF (fToC f) = f` and `fToC (cToF c) = c`. -/
theorem unit_conversion_roundtrip (f c : ℚ) :
    cToF (fToC f) = f ∧ fToC (cToF c) = c :=
  ⟨cToF_fToC f, fToC_cToF c⟩

/-- C4: the rendered zones emit click events carrying exactly their own side,
in left-right order, and the demo's side-click handler sets the editing
selection (a single `Side`) to the clicked side. -/
theorem click_emits_own_side (p : BedProps) (st : DemoState) (s : Side) :
    (renderBed p).zonesR.map RenderedZone.clickEvent = [Side.left, Side.right] ∧
    (renderBed p).zonesR.map RenderedZone.key = [Side.left, Side.right] ∧
    (setEditing s st).editing = s :=
  ⟨rfl, rfl, rfl⟩

/-- C5: switching the display unit changes only the unit: both zones (hence
their stored `currentTemp` and `targetTemp`), the editing selection, the page,
and the side names are untouched. -/
theorem setUnit_only_changes_unit (st : DemoState) (u : TUnit) (s : Side) :
    (setUnit u st).zones = st.zones ∧
    ((setUnit u st).zones.get s).currentTemp = (st.zones.get s).currentTemp ∧
    ((setUnit u st).zones.get s).targetTemp = (st.zones.get s).targetTemp ∧
    (setUnit u st).editing = st.editing ∧
    (setUnit u st).page = st.page ∧
    (setUnit u st).sideNames = st.sideNames ∧
    (setUnit u st).unit = u :=
  ⟨rfl, rfl, rfl, rfl, rfl, rfl, rfl⟩

/-- C7: bottom navigation changes only the page; the zones, editing selection,
unit and side names survive any page switch, and the page is always one of
home, settings, schedule. -/
theorem setPage_only_changes_page (st : DemoState) (p : Page) :
    (setPage p st).zones = st.zones ∧
    (setPage p st).editing = st.editing ∧
    (setPage p st).unit = st.unit ∧
    (setPage p st).sideNames = st.sideNames ∧
    (setPage p st).page = p ∧
    ((setPage p st).page = Page.home ∨ (setPage p st).page = Page.settings ∨
      (setPage p st).page = Page.schedule) := by
  refine ⟨rfl, rfl, rfl, rfl, rfl, ?_⟩
  cases p
  · exact Or.inl rfl
  · exact Or.inr (Or.inl rfl)
  · exact Or.inr (Or.inr rfl)

/-- C8: BedDualZone is a pure rendering function — two invocations with equal
props produce equal derived render output in every field. -/
theorem renderBed_pure (p q : BedProps) (h : p = q) : renderBed p = renderBed q := by
  rw [h]

/-- Witness for C8 at the demo's initial props. -/
theorem renderBed_pure_witness :
    renderBed
      { left := initialState.zones.left, right := initialState.zones.right
        editingSide := some Side.left, width := 360
        sideNames := some { left := some "Left", right := some "Right" }
        unit := TUnit.F } =
    renderBed
      { left := initialState.zones.left, right := initialState.zones.right
        editingSide := some Side.left, width := 360
        sideNames := some { left := some "Left", right := some "Right" }
        unit := TUnit.F } :=
  renderBed_pure _ _ rfl

lemma targetLabel_iff (u : TUnit) (z : ZoneState) :
    targetLabelOf u z ≠ none ↔ z.mode ≠ Mode.off ∧ z.targetTemp ≠ none := by
  rcases z with ⟨m, c, tt, sch⟩
  cases m <;> cases tt <;> simp [targetLabelOf] <;> split_ifs <;> simp

lemma scheduleLabel_iff (z : ZoneState) :
    scheduleLabelOf z ≠ none ↔
      ∃ sch, z.schedule = some sch ∧
        (sch.running = true ∨ ∃ t, sch.nextStart = some t ∧ t ≠ "") := by
  rcases z with ⟨m, c, tt, sch⟩
  cases sch with
  | none => simp [scheduleLabelOf]
  | some s =>
    rcases s with ⟨r, ns⟩
    cases r with
    | false =>
      cases ns with
      | none => simp [scheduleLabelOf]
      | some t =>
        simp only [scheduleLabelOf]
        split_ifs with h <;> simp_all
    | true => cases ns <;> simp [scheduleLabelOf]

/-- A zone whose schedule is present and carries a `nextStart` value — the
empty string, exactly what clearing the demo's time field stores — with the
schedule not running. -/
def emptyStartZone : ZoneState :=
  { mode := Mode.off, currentTemp := 70, targetTemp := none
    schedule := some { running := false, nextStart := some "" } }

/-- C6 counterexample: `emptyStartZone` has a present schedule with a present
`nextStart` value, yet BedDualZone renders no schedule label for it, because
the empty string is falsy in the rendering condition. -/
theorem schedule_label_absent_for_empty_start :
    emptyStartZone.schedule.bind Schedule.nextStart = some "" ∧
    emptyStartZone.schedule ≠ none ∧
    (renderZone TUnit.F none Side.left "Left" emptyStartZone).scheduleLabel = none :=
  ⟨rfl, by simp [emptyStartZone], rfl⟩

/-- C6 amended: BedDualZone renders a target-temperature label iff the mode is
not off and `targetTemp` is present, and a schedule label iff the schedule is
present with `running` true or a nonempty `nextStart` value. -/
theorem zone_labels_iff (u : TUnit) (es : Option Side) (k : Side) (nm : String)
    (z : ZoneState) :
    ((renderZone u es k nm z).targetLabel ≠ none ↔
      z.mode ≠ Mode.off ∧ z.targetTemp ≠ none) ∧
    ((renderZone u es k nm z).scheduleLabel ≠ none ↔
      ∃ sch, z.schedule = some sch ∧
        (sch.running = true ∨ ∃ t, sch.nextStart = some t ∧ t ≠ "")) :=
  ⟨targetLabel_iff u z, scheduleLabel_iff z⟩

lemma jsRound_le_bounds (a b : ℤ) (q : ℚ) (h1 : (a : ℚ) ≤ q) (h2 : q ≤ (b : ℚ)) :
    (a : ℚ) ≤ (jsRound q : ℚ) ∧ (jsRound q : ℚ) ≤ (b : ℚ) := by
  unfold jsRound
  constructor
  · have h : a ≤ ⌊q + 1/2⌋ := Int.le_floor.mpr (by linarith)
    exact_mod_cast h
  · have hlt : ⌊q + 1/2⌋ < b + 1 := Int.floor_lt.mpr (by
      have hc : ((b + 1 : ℤ) : ℚ) = (b : ℚ) + 1 := by push_cast; ring
      rw [hc]; linarith)
    have h : ⌊q + 1/2⌋ ≤ b := Int.lt_add_one_iff.mp hlt
    exact_mod_cast h

lemma toUnit_fromUnit_mem (u : TUnit) (x : ℚ) (h1 : (tempCfg u).min ≤ x)
    (h2 : x ≤ (tempCfg u).max) :
    (tempCfg u).min ≤ toUnit u (fromUnit u x) ∧
      toUnit u (fromUnit u x) ≤ (tempCfg u).max := by
  cases u with
  | F =>
    simp only [toUnit, fromUnit, tempCfg] at *
    have hb := jsRound_le_bounds 55 110 x (by exact_mod_cast h1) (by exact_mod_cast h2)
    exact ⟨by exact_mod_cast hb.1, by exact_mod_cast hb.2⟩
  | C =>
    simp only [toUnit, fromUnit, tempCfg] at *
    rw [fToC_cToF]
    have hb := jsRound_le_bounds 130 435 (x * 10) (by push_cast; linarith)
      (by push_cast; linarith)
    have hb1 := hb.1
    have hb2 := hb.2
    push_cast at hb1 hb2
    constructor <;> linarith

lemma displayedTarget_changeTempZone_mem (u : TUnit) (d : ℚ) (z : ZoneState) :
    (tempCfg u).min ≤ displayedTarget u (changeTempZone u d z) ∧
    displayedTarget u (changeTempZone u d z) ≤ (tempCfg u).max := by
  have hcc : (tempCfg u).min ≤ (tempCfg u).max := by
    cases u <;> norm_num [tempCfg]
  have hdt : displayedTarget u (changeTempZone u d z) =
      toUnit u (fromUnit u (min (tempCfg u).max (max (tempCfg u).min
        (toUnit u (z.targetTemp.getD (fromUnit u (tempCfg u).mid)) + d)))) := rfl
  rw [hdt]
  exact toUnit_fromUnit_mem u _ (le_min hcc (le_max_left _ _)) (min_le_left _ _)

lemma displayedTarget_applyPresses_mem (u : TUnit) (ds : List ℚ) :
    ∀ (z : ZoneState) (d : ℚ),
      (tempCfg u).min ≤ displayedTarget u (applyPresses u (changeTempZone u d z) ds) ∧
      displayedTarget u (applyPresses u (changeTempZone u d z) ds) ≤ (tempCfg u).max := by
  induction ds with
  | nil => exact fun z d => displayedTarget_changeTempZone_mem u d z
  | cons d' ds ih => exact fun z d => ih (changeTempZone u d z) d'

/-- C9: after any nonempty sequence of `changeTemp` presses with delta equal
to plus or minus the unit step, the displayed target temperature lies in the
active unit's range (55..110 for F, 13..43.5 for C); and an absent stored
target displays as the unit's mid value (82 °F / 28 °C). -/
theorem changeTemp_target_clamped (u : TUnit) (z : ZoneState) (ds : List ℚ)
    (hne : ds ≠ [])
    (hstep : ∀ d ∈ ds, d = (tempCfg u).step ∨ d = -(tempCfg u).step) :
    ((tempCfg u).min ≤ displayedTarget u (applyPresses u z ds) ∧
      displayedTarget u (applyPresses u z ds) ≤ (tempCfg u).max) ∧
    (z.targetTemp = none → displayedTarget u z = (tempCfg u).mid) := by
  constructor
  · cases ds with
    | nil => exact absurd rfl hne
    | cons d ds => exact displayedTarget_applyPresses_mem u ds z d
  · intro h
    cases u with
    | F =>
      have he : displayedTarget TUnit.F z = (⌊(82 : ℚ) + 1/2⌋ : ℚ) := by
        simp [displayedTarget, h, toUnit, fromUnit, tempCfg, jsRound]
      have hf : ⌊(82 : ℚ) + 1/2⌋ = 82 := by
        rw [Int.floor_eq_iff]
        norm_num
      rw [he, hf]
      norm_num [tempCfg]
    | C =>
      have he : displayedTarget TUnit.C z = (⌊(28 : ℚ) * 10 + 1/2⌋ : ℚ) / 10 := by
        simp [displayedTarget, h, toUnit, fromUnit, tempCfg, jsRound, fToC_cToF]
      have hf : ⌊(28 : ℚ) * 10 + 1/2⌋ = 280 := by
        rw [Int.floor_eq_iff]
        norm_num
      rw [he, hf]
      norm_num [tempCfg]

/-- Witness for C9: one `+1` press on the demo's initial right zone under
Fahrenheit. -/
theorem changeTemp_target_clamped_witness :
    ([(1 : ℚ)] ≠ [] ∧
      (∀ d ∈ [(1 : ℚ)], d = (tempCfg TUnit.F).step ∨ d = -(tempCfg TUnit.F).step)) ∧
    (((tempCfg TUnit.F).min ≤
        displayedTarget TUnit.F (applyPresses TUnit.F initialState.zones.right [(1 : ℚ)]) ∧
      displayedTarget TUnit.F (applyPresses TUnit.F initialState.zones.right [(1 : ℚ)]) ≤
        (tempCfg TUnit.F).max) ∧
      (initialState.zones.right.targetTemp = none →
        displayedTarget TUnit.F initialState.zones.right = (tempCfg TUnit.F).mid)) :=
  ⟨⟨by simp, by intro d hd; rw [List.mem_singleton] at hd; exact Or.inl hd⟩,
   changeTemp_target_clamped TUnit.F initialState.zones.right [(1 : ℚ)] (by simp)
     (by intro d hd; rw [List.mem_singleton] at hd; exact Or.inl hd)⟩

/-- C10: `togglePower` strictly alternates power — the result is off iff the
zone was on — and turning a zone on defines the target (defaulting to
`currentTemp`) and picks heat or cool by comparing that target with
`currentTemp`, with heat on equality. -/
theorem togglePower_alternates (z : ZoneState) :
    ((togglePowerZone z).mode = Mode.off ↔ ¬ z.mode = Mode.off) ∧
    (z.mode = Mode.off →
      (togglePowerZone z).targetTemp = some (z.targetTemp.getD z.currentTemp) ∧
      (togglePowerZone z).mode =
        (if z.currentTemp < z.targetTemp.getD z.currentTemp then Mode.heat
         else if z.targetTemp.getD z.currentTemp < z.currentTemp then Mode.cool
         else Mode.heat)) := by
  rcases z with ⟨m, c, tt, sch⟩
  cases m with
  | off =>
    simp only [togglePowerZone]
    split_ifs <;> simp_all
  | cool => simp [togglePowerZone]
  | heat => simp [togglePowerZone]

/-- Witness for C10 at the demo's initial right zone (mode off, no target). -/
theorem togglePower_alternates_witness :
    ((togglePowerZone initialState.zones.right).mode = Mode.off ↔
      ¬ initialState.zones.right.mode = Mode.off) ∧
    ((togglePowerZone initialState.zones.right).targetTemp =
        some (initialState.zones.right.targetTemp.getD
          initialState.zones.right.currentTemp) ∧
      (togglePowerZone initialState.zones.right).mode =
        (if initialState.zones.right.currentTemp <
            initialState.zones.right.targetTemp.getD
              initialState.zones.right.currentTemp
          then Mode.heat
          else if initialState.zones.right.targetTemp.getD
              initialState.zones.right.currentTemp <
              initialState.zones.right.currentTemp
            then Mode.cool
            else Mode.heat)) :=
  ⟨(togglePower_alternates initialState.zones.right).1,
   (togglePower_alternates initialState.zones.right).2 rfl⟩

end BedZones
